import Mathlib

/-!
Verification development for the episodic-memory subsystem of the
stock-agent repository (`src/memory/stores.py`, `src/memory/memorymodel.py`,
`src/portfolio.py`).

Modelling conventions:
* machine floats become `ℚ`;
* `datetime` values become `ℕ` (an instant; the ISO rendering used by the
  serialization layer is injective, so a rendered timestamp is identified
  with the instant it denotes);
* Python dictionaries become association lists;
* the OpenAI embedding call `llm_utils.get_text_embedding` and the textual
  rendering `str(episode)` are external effects / large formatting code and
  are passed in as explicit function parameters, so every theorem quantifies
  over them;
* TinyDB tables become lists of records; a table that only ever sees
  `insert` assigns document id `i + 1` to its `i`-th element, which is
  exactly TinyDB's id assignment on an insert-only table.
-/

namespace StockAgent

/-- Field structure of `portfolio.Position` (all attributes set in
`Position.__init__` / `update_position`). -/
structure Position where
  symbol : String
  buy_price : ℚ
  quantity : ℚ
  position_value : ℚ
  last_update_price : ℚ
  absolute_change_since_start : ℚ
  relative_change_since_start : ℚ
  absolute_change_since_update : ℚ
  relative_change_since_update : ℚ
  last_update_time : ℕ
deriving DecidableEq

/-- Field structure of `portfolio.Transaction` (attributes set in
`Transaction.__init__`). -/
structure Transaction where
  time : ℕ
  transaction_type : String
  symbol : String
  price : ℚ
  quantity : ℚ
  total_value : ℚ
  cash_after_transaction : ℚ
  comment : String
deriving DecidableEq

/-- Field structure of `portfolio.Portfolio` (attributes set in
`Portfolio.__init__`): cash fields, the symbol-to-position mapping, the
transaction history, derived metrics and the update timestamp. -/
structure Portfolio where
  initial_cash : ℚ
  total_cash : ℚ
  positions : List (String × Position)
  transaction_history : List Transaction
  portfolio_value : ℚ
  absolute_change_since_start : ℚ
  relative_change_since_start : ℚ
  absolute_change_since_update : ℚ
  relative_change_since_update : ℚ
  last_update_time : ℕ
deriving DecidableEq

/-- The serialized form of a portfolio, translated from
`Portfolio.__get_pydantic_core_schema__`: a typed dict with exactly the nine
keys listed there (`initial_cash`, `total_cash`, `positions`,
`portfolio_value`, the four change metrics, `last_update_time`).  The
schema does NOT list `transaction_history`, so that field has no place in
the record.  `positions` is declared as a bare `dict_schema()` and passes
through unchanged; `last_update_time` is stored as its ISO string, which we
identify with the instant it denotes. -/
structure PortfolioRec where
  initial_cash : ℚ
  total_cash : ℚ
  positions : List (String × Position)
  portfolio_value : ℚ
  absolute_change_since_start : ℚ
  relative_change_since_start : ℚ
  absolute_change_since_update : ℚ
  relative_change_since_update : ℚ
  last_update_time : ℕ
deriving DecidableEq

/-- Serialization of a portfolio under the custom pydantic core schema:
reads exactly the nine schema fields off the object. -/
def dump_portfolio (p : Portfolio) : PortfolioRec :=
  { initial_cash := p.initial_cash
    total_cash := p.total_cash
    positions := p.positions
    portfolio_value := p.portfolio_value
    absolute_change_since_start := p.absolute_change_since_start
    relative_change_since_start := p.relative_change_since_start
    absolute_change_since_update := p.absolute_change_since_update
    relative_change_since_update := p.relative_change_since_update
    last_update_time := p.last_update_time }

/-- Validation of a serialized portfolio under the same schema: the value a
validated episode carries for its portfolio field is precisely the typed
dict of the nine schema fields.  We model that value as a `Portfolio` whose
nine schema fields come from the record and whose `transaction_history`
(absent from the record) is empty. -/
def validate_portfolio (r : PortfolioRec) : Portfolio :=
  { initial_cash := r.initial_cash
    total_cash := r.total_cash
    positions := r.positions
    transaction_history := []
    portfolio_value := r.portfolio_value
    absolute_change_since_start := r.absolute_change_since_start
    relative_change_since_start := r.relative_change_since_start
    absolute_change_since_update := r.absolute_change_since_update
    relative_change_since_update := r.relative_change_since_update
    last_update_time := r.last_update_time }

/-- `memory.memorymodel.Action`: a pydantic model with `action_type`,
optional `transaction` and `expectation`. -/
structure TradeAction where
  action_type : String
  transaction : Option Transaction
  expectation : String
deriving DecidableEq

/-- `memory.memorymodel.Reflection`: optional posterior position plus the
two evaluation strings. -/
structure Reflection where
  posterior_position : Option Position
  expectation_evaluation : String
  learning : String
deriving DecidableEq

/-- `memory.memorymodel.Perception`: the news text and the portfolio
snapshot. -/
structure Perception where
  news_of_the_day : String
  portfolio : Portfolio
deriving DecidableEq

/-- `memory.memorymodel.Experience`: date, perception and optional action. -/
structure Experience where
  date : ℕ
  perception : Perception
  action : Option TradeAction
deriving DecidableEq

/-- `memory.memorymodel.Episode`: unique id string, experience and optional
reflection.  An episode is pending iff `reflection` is `none`. -/
structure Episode where
  unique_id : String
  experience : Experience
  reflection : Option Reflection
deriving DecidableEq

/-- Serialized perception: the portfolio field is replaced by its
serialized record; the news string round-trips unchanged. -/
structure PerceptionRec where
  news_of_the_day : String
  portfolio : PortfolioRec
deriving DecidableEq

/-- Serialized experience.  `TradeAction`, `Transaction` and the date are
plain pydantic data and round-trip field-for-field, so the record reuses
their types. -/
structure ExperienceRec where
  date : ℕ
  perception : PerceptionRec
  action : Option TradeAction
deriving DecidableEq

/-- Serialized episode, the JSON document produced by
`episode.model_dump_json()` and stored by TinyDB. -/
structure EpisodeRec where
  unique_id : String
  experience : ExperienceRec
  reflection : Option Reflection
deriving DecidableEq

/-- Serialization as used by the controller:
`json.loads(episode.model_dump_json())`.  All standard pydantic fields map
across verbatim; the portfolio goes through the custom schema. -/
def dump_episode (e : Episode) : EpisodeRec :=
  { unique_id := e.unique_id
    experience :=
      { date := e.experience.date
        perception :=
          { news_of_the_day := e.experience.perception.news_of_the_day
            portfolio := dump_portfolio e.experience.perception.portfolio }
        action := e.experience.action }
    reflection := e.reflection }

/-- Deserialization as used by the controller: `Episode.model_validate` on
a stored document. -/
def validate_episode (r : EpisodeRec) : Episode :=
  { unique_id := r.unique_id
    experience :=
      { date := r.experience.date
        perception :=
          { news_of_the_day := r.experience.perception.news_of_the_day
            portfolio := validate_portfolio r.experience.perception.portfolio }
        action := r.experience.action }
    reflection := r.reflection }

/-- The lossy image of an episode under a serialization round-trip: equal
to the episode in every field except that the portfolio's
`transaction_history` is emptied (the custom schema drops it). -/
def erase_portfolio_history (e : Episode) : Episode :=
  { e with
    experience :=
      { e.experience with
        perception :=
          { e.experience.perception with
            portfolio :=
              { e.experience.perception.portfolio with
                transaction_history := [] } } } }

/-- State of a `MemoryController` for one agent: the episode catalog
(`MemoryIndex`, a TinyDB table of serialized episodes whose `i`-th record
has document id `i + 1`), the vector index (`EmbeddingsStore`, the list of
faiss `IndexIDMap` entries in insertion order) and the pending store
(`current_episode_store`, a TinyDB table of serialized episodes). -/
structure CtrlState where
  catalog : List EpisodeRec
  index : List (ℕ × List ℚ)
  pending : List EpisodeRec
deriving DecidableEq

/-- A freshly constructed controller whose three backing files do not yet
exist: all three stores start empty. -/
def init_ctrl_state : CtrlState := ⟨[], [], []⟩

/-- `MemoryController.save_current_episode`: serializes the episode and
inserts it into the `current_episode_store` (a TinyDB `insert`, which
appends a new document; it does not replace existing ones). -/
def save_current_episode (e : Episode) (s : CtrlState) : CtrlState :=
  { s with pending := s.pending ++ [dump_episode e] }

/-- Document id TinyDB assigns to the next insert into the catalog. -/
def assigned_episode_id (s : CtrlState) : ℕ := s.catalog.length + 1

/-- `MemoryController.save_finished_episode`, parametrized by the textual
rendering `str(episode)` and the external embedding call
`get_text_embedding`: inserts the serialized episode into the catalog
(`MemoryIndex.save_episode`, returning the new document id), appends
`(id, embedding)` to the faiss index (`EmbeddingsStore.save_embedding`),
and, when `remove_current` is true (its default), truncates the pending
store. -/
def save_finished_episode (render : Episode → String)
    (embed_text : String → List ℚ) (e : Episode) (s : CtrlState)
    (remove_current : Bool := true) : CtrlState :=
  { catalog := s.catalog ++ [dump_episode e]
    index := s.index ++ [(assigned_episode_id s, embed_text (render e))]
    pending := if remove_current then [] else s.pending }

/-- `MemoryController.get_current_episode`: reads all documents of the
pending store and validates the last one; absence when the table is
empty. -/
def get_current_episode (s : CtrlState) : Option Episode :=
  s.pending.getLast?.map validate_episode

/-- `MemoryController.get_memory_count`: `len(self.memory_index.db)`. -/
def get_memory_count (s : CtrlState) : ℕ := s.catalog.length

/-- `MemoryIndex.get_episode`: TinyDB point lookup by document id; on an
insert-only table document id `i + 1` addresses the `i`-th record. -/
def get_episode (catalog : List EpisodeRec) (episode_id : ℕ) :
    Option EpisodeRec :=
  if episode_id = 0 then none else catalog[episode_id - 1]?

/-- Squared Euclidean (L2) distance on the common length of two raw
vectors; no normalization of either vector. -/
def sq_dist (q v : List ℚ) : ℚ :=
  (List.zipWith (fun a b => (a - b) ^ 2) q v).sum

/-- Comparison of scored entries by their distance component. -/
def dist_le (a b : ℕ × ℚ) : Prop := a.2 ≤ b.2

instance : DecidableRel dist_le := fun a b => inferInstanceAs (Decidable (a.2 ≤ b.2))

instance : IsTotal (ℕ × ℚ) dist_le := ⟨fun a b => le_total a.2 b.2⟩

instance : IsTrans (ℕ × ℚ) dist_le := ⟨fun _ _ _ h h' => le_trans h h'⟩

/-- Modelled from the spec: the nearest-neighbor search of the faiss
`IndexIDMap(IndexFlatL2(dimension))` structure used by `EmbeddingsStore`
(faiss is a third-party dependency whose code is not under `src/`).  Scores
every stored entry by squared L2 distance to the query and keeps the `k`
nearest in ascending-distance order. -/
def search_pairs (entries : List (ℕ × List ℚ)) (q : List ℚ) (k : ℕ) :
    List (ℕ × ℚ) :=
  ((entries.map (fun p => (p.1, sq_dist q p.2))).insertionSort dist_le).take k

/-- `EmbeddingsStore.get_similar_embeddings`: runs the faiss search and
returns the id row and the parallel distance row. -/
def get_similar_embeddings (entries : List (ℕ × List ℚ)) (q : List ℚ)
    (best_k : ℕ := 5) : List ℕ × List ℚ :=
  ((search_pairs entries q best_k).map Prod.fst,
   (search_pairs entries q best_k).map Prod.snd)

/-- `MemoryController.get_similar_episodes`: absence when the catalog is
empty; otherwise embeds the rendered query episode, searches the index and
resolves each returned id through the catalog.  An inner `none` marks an id
the catalog cannot resolve (where the Python `model_validate(None)` call
would raise). -/
def get_similar_episodes (render : Episode → String)
    (embed_text : String → List ℚ) (e : Episode) (s : CtrlState)
    (best_k : ℕ := 5) : Option (List (Option Episode)) :=
  if get_memory_count s = 0 then none
  else
    some (((get_similar_embeddings s.index (embed_text (render e)) best_k).1).map
      (fun episode_id => (get_episode s.catalog episode_id).map validate_episode))

/-- State of an `EmbeddingsStore`: the configured dimension and the stored
`(id, vector)` entries. -/
structure EmbeddingsStore where
  dimension : ℕ
  entries : List (ℕ × List ℚ)
deriving DecidableEq

/-- Outcome of the `faiss.read_index` call in `EmbeddingsStore.__init__`:
a successful load of persisted entries, a missing file, or any other read
failure (the spec's StorageUnavailable). -/
inductive ReadOutcome where
  | ok (entries : List (ℕ × List ℚ))
  | fileNotFound
  | readError
deriving DecidableEq

/-- `EmbeddingsStore.__init__`: tries `faiss.read_index(index_path)`; the
bare `except:` clause turns every failure — missing file or any other read
error alike — into a fresh empty `IndexIDMap(IndexFlatL2(dimension))`. -/
def embeddings_store_init (dimension : ℕ) (r : ReadOutcome) :
    EmbeddingsStore :=
  match r with
  | .ok es => ⟨dimension, es⟩
  | .fileNotFound => ⟨dimension, []⟩
  | .readError => ⟨dimension, []⟩

/-- Follows the spec's words, for refinement comparison with
`embeddings_store_init`: a missing persisted index yields a fresh empty
index, while any other read failure is propagated as StorageUnavailable. -/
def embeddings_store_init_spec (dimension : ℕ) (r : ReadOutcome) :
    Except String EmbeddingsStore :=
  match r with
  | .ok es => .ok ⟨dimension, es⟩
  | .fileNotFound => .ok ⟨dimension, []⟩
  | .readError => .error "StorageUnavailable"

/-- Source line `unique_id: str = str(uuid4())` of `Episode`: the default
expression is evaluated a single time, when the class body executes;
`class_uuid` is that one value.  Constructing an episode without an
explicit unique id therefore always uses the same string. -/
def mk_episode_default (class_uuid : String) (experience : Experience)
    (reflection : Option Reflection) : Episode :=
  ⟨class_uuid, experience, reflection⟩

/-- Folding a list of save-pending calls over a controller state. -/
def save_seq (es : List Episode) (s : CtrlState) : CtrlState :=
  es.foldl (fun st e => save_current_episode e st) s

/-- Invariant tying the two durable stores together: every id in the
vector index was assigned by a catalog insert, hence is at most the
catalog's length.  It holds for a fresh controller and is preserved by
every controller operation. -/
def index_ids_bounded (s : CtrlState) : Prop :=
  ∀ p ∈ s.index, p.1 ≤ s.catalog.length

instance (s : CtrlState) : Decidable (index_ids_bounded s) :=
  inferInstanceAs (Decidable (∀ p ∈ s.index, p.1 ≤ s.catalog.length))

/-! Concrete fixtures used by witnesses and counterexamples. -/

/-- A concrete position. -/
def pos0 : Position :=
  ⟨"AAPL", 150, 10, 1500, 150, 0, 0, 0, 0, 0⟩

/-- A concrete transaction. -/
def tx0 : Transaction :=
  ⟨0, "BUY", "AAPL", 150, 10, 1500, 8500, "position opened"⟩

/-- A concrete portfolio with a nonempty transaction history. -/
def portfolio0 : Portfolio :=
  ⟨10000, 8500, [("AAPL", pos0)], [tx0], 10000, 0, 0, 0, 0, 0⟩

/-- A concrete experience. -/
def exp0 : Experience :=
  ⟨0, ⟨"Tech stocks rally.", portfolio0⟩, some ⟨"BUY", some tx0, "AAPL will rise."⟩⟩

/-- A concrete reflection. -/
def refl0 : Reflection :=
  ⟨some pos0, "AAPL stayed level.", "Launches do not move the market short-term."⟩

/-- A concrete finished episode (reflection present) whose portfolio has a
nonempty transaction history. -/
def ep0 : Episode := ⟨"id-0", exp0, some refl0⟩

/-- A concrete pending episode (no reflection). -/
def ep_no_refl : Episode := ⟨"id-1", exp0, none⟩

/-- A concrete trivial embedding function. -/
def embed0 : String → List ℚ := fun _ => [0]

/-- A concrete trivial rendering function. -/
def render0 : Episode → String := fun _ => ""

/-- A concrete nonempty controller state: one finalized episode and one
pending episode. -/
def state1 : CtrlState :=
  ⟨[dump_episode ep0], [(1, [0])], [dump_episode ep_no_refl]⟩

/-- A concrete two-entry vector index. -/
def entries1 : List (ℕ × List ℚ) := [(1, [0, 0]), (2, [3, 4])]

/-! Helper lemmas about the search model and the pending store. -/

lemma search_pairs_sorted (entries : List (ℕ × List ℚ)) (q : List ℚ)
    (k : ℕ) : List.Sorted dist_le (search_pairs entries q k) :=
  List.Pairwise.sublist (List.take_sublist _ _)
    (List.sorted_insertionSort dist_le _)

lemma search_pairs_length (entries : List (ℕ × List ℚ)) (q : List ℚ)
    (k : ℕ) : (search_pairs entries q k).length = min k entries.length := by
  simp [search_pairs, List.length_take, List.length_insertionSort]

lemma mem_search_pairs {entries : List (ℕ × List ℚ)} {q : List ℚ} {k : ℕ}
    {p : ℕ × ℚ} (hp : p ∈ search_pairs entries q k) :
    ∃ v, (p.1, v) ∈ entries ∧ p.2 = sq_dist q v := by
  have hmem : p ∈ entries.map (fun p => (p.1, sq_dist q p.2)) :=
    (List.perm_insertionSort dist_le _).subset
      ((List.take_sublist _ _).subset hp)
  rcases List.mem_map.mp hmem with ⟨entry, hentry, hEq⟩
  exact ⟨entry.2, by simpa [← hEq] using hentry, by rw [← hEq]⟩

lemma search_pairs_perm_of_length_le {entries : List (ℕ × List ℚ)}
    {q : List ℚ} {k : ℕ} (h : entries.length ≤ k) :
    (search_pairs entries q k).Perm
      (entries.map (fun p => (p.1, sq_dist q p.2))) := by
  have hlen : ((entries.map (fun p => (p.1, sq_dist q p.2))).insertionSort
      dist_le).length ≤ k := by
    simpa [List.length_insertionSort] using h
  rw [search_pairs, List.take_of_length_le hlen]
  exact List.perm_insertionSort dist_le _

lemma save_seq_pending (es : List Episode) (s : CtrlState) :
    (save_seq es s).pending = s.pending ++ es.map dump_episode := by
  induction es generalizing s with
  | nil => simp [save_seq]
  | cons e es ih =>
      simp [save_seq, List.foldl_cons] at ih ⊢
      rw [ih]
      simp [save_current_episode]

/-! Claim theorems. -/

/-- C5: on every nonempty vector index state, for every query vector of the
configured dimension and every `k`, `get_similar_embeddings` returns up to
`k` stored ids, paired with the parallel distance values, ordered by
ascending squared Euclidean distance between the raw stored vector and the
raw query vector (nearest first, no normalization). -/
theorem search_ordered_by_squared_l2 (entries : List (ℕ × List ℚ))
    (q : List ℚ) (k d : ℕ) (hne : entries ≠ []) (hq : q.length = d)
    (hdim : ∀ p ∈ entries, (p.2 : List ℚ).length = d) :
    (get_similar_embeddings entries q k).1.length = min k entries.length ∧
    (get_similar_embeddings entries q k).2.length = min k entries.length ∧
    List.Sorted (· ≤ ·) (get_similar_embeddings entries q k).2 ∧
    ∀ pr ∈ (get_similar_embeddings entries q k).1.zip
        (get_similar_embeddings entries q k).2,
      ∃ v, (pr.1, v) ∈ entries ∧ pr.2 = sq_dist q v := by
  have hzip : (get_similar_embeddings entries q k).1.zip
      (get_similar_embeddings entries q k).2 = search_pairs entries q k := by
    simp [get_similar_embeddings, List.zip_map']
  refine ⟨?_, ?_, ?_, ?_⟩
  · simp [get_similar_embeddings, search_pairs_length]
  · simp [get_similar_embeddings, search_pairs_length]
  · exact List.Pairwise.map Prod.snd (fun a b h => h)
      (search_pairs_sorted entries q k)
  · intro pr hpr
    exact mem_search_pairs (hzip ▸ hpr)

/-- C5 witness: instantiation on a concrete two-entry index and a concrete
query of the configured dimension. -/
theorem search_ordered_by_squared_l2_witness :
    entries1 ≠ [] ∧ ([(0 : ℚ), 0]).length = 2 ∧
      (∀ p ∈ entries1, (p.2 : List ℚ).length = 2) ∧
      ((get_similar_embeddings entries1 [0, 0] 1).1.length
          = min 1 entries1.length ∧
        (get_similar_embeddings entries1 [0, 0] 1).2.length
          = min 1 entries1.length ∧
        List.Sorted (· ≤ ·) (get_similar_embeddings entries1 [0, 0] 1).2 ∧
        ∀ pr ∈ (get_similar_embeddings entries1 [0, 0] 1).1.zip
            (get_similar_embeddings entries1 [0, 0] 1).2,
          ∃ v, (pr.1, v) ∈ entries1 ∧ pr.2 = sq_dist [0, 0] v) :=
  ⟨by decide, by decide, by decide,
    search_ordered_by_squared_l2 entries1 [0, 0] 1 2 (by decide) (by decide)
      (by decide)⟩

/-- C6: searching an empty index returns the empty result rather than an
error, and when the index holds at most `k` entries the returned id row is
a permutation of (exactly) the stored ids. -/
theorem search_empty_and_fewer_than_k (entries : List (ℕ × List ℚ))
    (q q' : List ℚ) (k k' : ℕ) (h : entries.length ≤ k) :
    get_similar_embeddings [] q' k' = ([], []) ∧
    ((get_similar_embeddings entries q k).1).Perm
      (entries.map Prod.fst) := by
  constructor
  · simp [get_similar_embeddings, search_pairs]
  · have hperm := (search_pairs_perm_of_length_le (q := q) h).map Prod.fst
    simpa [get_similar_embeddings, List.map_map, Function.comp] using hperm

/-- C6 witness: instantiation on a concrete two-entry index with `k = 5`. -/
theorem search_empty_and_fewer_than_k_witness :
    entries1.length ≤ 5 ∧
      (get_similar_embeddings [] [0] 3 = ([], []) ∧
        ((get_similar_embeddings entries1 [0, 0] 5).1).Perm
          (entries1.map Prod.fst)) :=
  ⟨by decide, search_empty_and_fewer_than_k entries1 [0, 0] [0] 5 3 (by decide)⟩

/-- C3: retrieval on a state whose catalog count is zero returns the
distinguished absence value `none` (never `some []`) and, being a total
function that short-circuits before touching the index or the embedding
call, raises no error. -/
theorem empty_memory_retrieval_returns_none (render : Episode → String)
    (embed_text : String → List ℚ) (e : Episode) (k : ℕ) (s : CtrlState)
    (h : get_memory_count s = 0) :
    get_similar_episodes render embed_text e s k = none := by
  simp [get_similar_episodes, h]

/-- C3 witness: instantiation on the freshly constructed controller. -/
theorem empty_memory_retrieval_returns_none_witness :
    get_memory_count init_ctrl_state = 0 ∧
      get_similar_episodes render0 embed0 ep0 init_ctrl_state 5 = none :=
  ⟨rfl, empty_memory_retrieval_returns_none render0 embed0 ep0 5
    init_ctrl_state rfl⟩

/-- C10: every episode constructed without an explicitly supplied unique
id receives the identical `unique_id` string, because the default
expression `str(uuid4())` is evaluated once at class-definition time; so
`unique_id` does not distinguish two such episodes. -/
theorem default_unique_id_shared (class_uuid : String)
    (x1 x2 : Experience) (r1 r2 : Option Reflection) :
    (mk_episode_default class_uuid x1 r1).unique_id
      = (mk_episode_default class_uuid x2 r2).unique_id := rfl

/-- C1: for every episode with a reflection, on every state satisfying the
id-boundedness invariant linking index ids to catalog inserts, after
`save_finished_episode` (default `remove_current`): the catalog holds the
record of `e` (its serialization, modulo the assigned document id) at the
assigned id, the index holds exactly the embedding of `e`'s textual
rendering under that id, and the pending store is empty, so
`get_current_episode` returns absence. -/
theorem finalize_postcondition (render : Episode → String)
    (embed_text : String → List ℚ) (e : Episode) (s : CtrlState)
    (hrefl : e.reflection.isSome) (hinv : index_ids_bounded s) :
    get_episode (save_finished_episode render embed_text e s).catalog
        (assigned_episode_id s) = some (dump_episode e) ∧
    (save_finished_episode render embed_text e s).index.filter
        (fun p => p.1 == assigned_episode_id s)
      = [(assigned_episode_id s, embed_text (render e))] ∧
    (save_finished_episode render embed_text e s).pending = [] ∧
    get_current_episode (save_finished_episode render embed_text e s)
      = none := by
  refine ⟨?_, ?_, rfl, rfl⟩
  · simp [get_episode, save_finished_episode, assigned_episode_id,
      List.getElem?_concat_length]
  · have hold : s.index.filter (fun p => p.1 == assigned_episode_id s)
        = [] := by
      rw [List.filter_eq_nil_iff]
      intro p hp
      have hle := hinv p hp
      simp only [beq_iff_eq, assigned_episode_id]
      omega
    simp [save_finished_episode, List.filter_append, hold]

/-- C1 witness: instantiation on a concrete state holding one finalized
and one pending episode, with a concrete rendering and embedding. -/
theorem finalize_postcondition_witness :
    ep0.reflection.isSome ∧ index_ids_bounded state1 ∧
      (get_episode (save_finished_episode render0 embed0 ep0 state1).catalog
          (assigned_episode_id state1) = some (dump_episode ep0) ∧
        (save_finished_episode render0 embed0 ep0 state1).index.filter
            (fun p => p.1 == assigned_episode_id state1)
          = [(assigned_episode_id state1, embed0 (render0 ep0))] ∧
        (save_finished_episode render0 embed0 ep0 state1).pending = [] ∧
        get_current_episode (save_finished_episode render0 embed0 ep0 state1)
          = none) :=
  ⟨by decide, by decide,
    finalize_postcondition render0 embed0 ep0 state1 (by decide) (by decide)⟩

/-- C2 counterexample: the controller performs no reflection validation.
`ep_no_refl` has no reflection, yet `save_finished_episode` neither raises
nor leaves the stores unchanged — it writes the catalog, index and pending
store; likewise `save_current_episode` accepts `ep0`, whose reflection is
present, and writes it.  This refutes the claimed InvalidState rejection. -/
theorem no_invalid_state_check_counterexample :
    ep_no_refl.reflection = none ∧
    (save_finished_episode render0 embed0 ep_no_refl init_ctrl_state).catalog
      = [dump_episode ep_no_refl] ∧
    ep0.reflection.isSome ∧
    (save_current_episode ep0 init_ctrl_state).pending
      = [dump_episode ep0] := by
  exact ⟨rfl, rfl, rfl, rfl⟩

/-- C2 amended: neither operation validates the reflection field.
`save_current_episode` stores any episode, with or without a reflection,
and `save_finished_episode` called on an episode without a reflection
proceeds exactly as on a finished one: it appends the record to the
catalog, appends the embedding under the assigned id, and clears the
pending store. -/
theorem writes_proceed_without_reflection_check (render : Episode → String)
    (embed_text : String → List ℚ) (e e' : Episode) (s : CtrlState)
    (h : e.reflection = none) (h' : e'.reflection.isSome) :
    (save_finished_episode render embed_text e s).catalog
        = s.catalog ++ [dump_episode e] ∧
    (save_finished_episode render embed_text e s).index
        = s.index ++ [(assigned_episode_id s, embed_text (render e))] ∧
    (save_finished_episode render embed_text e s).pending = [] ∧
    (save_current_episode e' s).pending
        = s.pending ++ [dump_episode e'] :=
  ⟨rfl, rfl, rfl, rfl⟩

/-- C2 amended witness: instantiation on the concrete pending episode
(no reflection) and the concrete finished episode. -/
theorem writes_proceed_without_reflection_check_witness :
    ep_no_refl.reflection = none ∧ ep0.reflection.isSome ∧
      ((save_finished_episode render0 embed0 ep_no_refl state1).catalog
          = state1.catalog ++ [dump_episode ep_no_refl] ∧
        (save_finished_episode render0 embed0 ep_no_refl state1).index
          = state1.index
              ++ [(assigned_episode_id state1, embed0 (render0 ep_no_refl))] ∧
        (save_finished_episode render0 embed0 ep_no_refl state1).pending
          = [] ∧
        (save_current_episode ep0 state1).pending
          = state1.pending ++ [dump_episode ep0]) :=
  ⟨rfl, rfl,
    writes_proceed_without_reflection_check render0 embed0 ep_no_refl ep0
      state1 rfl rfl⟩

/-- C4 counterexample: two save-pending calls without an intervening
finalize leave TWO documents in the pending store — `save_current_episode`
is a TinyDB `insert` (append), not an overwrite, so the store is not a
single slot and the claimed at-most-one invariant fails on this reachable
state. -/
theorem pending_single_slot_counterexample :
    (save_current_episode ep0
        (save_current_episode ep_no_refl init_ctrl_state)).pending
      = [dump_episode ep_no_refl, dump_episode ep0] ∧
    1 < (save_current_episode ep0
        (save_current_episode ep_no_refl init_ctrl_state)).pending.length :=
  ⟨rfl, by decide⟩

/-- C4 amended: `save_current_episode` appends the serialized episode to
the pending store, which may therefore hold several episodes; the read
endpoint returns (the validated record of) the most recently saved one and
finalize clears the whole store, so the interface behaves last-write-wins
on reads even though the store is not single-slot. -/
theorem save_current_appends_last_write_wins (e e' : Episode)
    (render : Episode → String) (embed_text : String → List ℚ)
    (s : CtrlState) :
    (save_current_episode e s).pending = s.pending ++ [dump_episode e] ∧
    get_current_episode (save_current_episode e s)
      = some (validate_episode (dump_episode e)) ∧
    (save_finished_episode render embed_text e' s).pending = [] := by
  refine ⟨rfl, ?_, rfl⟩
  simp [get_current_episode, save_current_episode, List.getLast?_concat]

/-- C7 counterexample: a read failure other than a missing file
(StorageUnavailable) is NOT propagated: the bare `except:` in
`EmbeddingsStore.__init__` silently yields a fresh empty index of the
configured dimension, diverging from the spec-following constructor, which
propagates the error. -/
theorem init_read_error_counterexample :
    embeddings_store_init 1536 ReadOutcome.readError
      = ⟨1536, []⟩ ∧
    embeddings_store_init_spec 1536 ReadOutcome.readError
      = Except.error "StorageUnavailable" :=
  ⟨rfl, rfl⟩

/-- C7 amended: a missing persisted index file AND every other read
failure alike yield a fresh empty index of the configured dimension; no
read error is propagated to the caller. -/
theorem init_any_failure_fresh_index (d : ℕ) :
    embeddings_store_init d ReadOutcome.fileNotFound = ⟨d, []⟩ ∧
    embeddings_store_init d ReadOutcome.readError = ⟨d, []⟩ :=
  ⟨rfl, rfl⟩

/-- C8 counterexample: a concrete finished episode (reflection present,
nested portfolio, position and transaction payloads) whose portfolio has a
nonempty transaction history does not survive a serialize-then-deserialize
round trip: the custom Portfolio schema drops `transaction_history`, so
the result differs from the original. -/
theorem round_trip_counterexample :
    ep0.reflection.isSome ∧
    ep0.experience.perception.portfolio.transaction_history ≠ [] ∧
    validate_episode (dump_episode ep0) ≠ ep0 := by
  exact ⟨rfl, by decide, by decide⟩

/-- C8 amended: serialize-then-deserialize of a finished episode yields a
value equal to the original in every field — dates and nested position,
transaction and action payloads included — except that the portfolio is
reduced to the nine fields of its custom schema: its
`transaction_history` is dropped. -/
theorem round_trip_drops_transaction_history (e : Episode)
    (h : e.reflection.isSome) :
    validate_episode (dump_episode e) = erase_portfolio_history e := rfl

/-- C8 amended witness: instantiation on the concrete finished episode. -/
theorem round_trip_drops_transaction_history_witness :
    ep0.reflection.isSome ∧
      validate_episode (dump_episode ep0) = erase_portfolio_history ep0 :=
  ⟨rfl, round_trip_drops_transaction_history ep0 rfl⟩

/-- C9 counterexample: even a single save-pending call is not read back
unchanged: `get_current_episode` returns the validated stored record, and
the stored record has lost the portfolio's transaction history, so it is
not the episode that was saved. -/
theorem get_pending_counterexample :
    get_current_episode (save_current_episode ep0 init_ctrl_state)
      ≠ some ep0 := by
  decide

/-- C9 amended: after any sequence of save-pending calls without an
intervening finalize, `get_current_episode` returns the validated stored
record of the most recently saved episode (equal to it in all fields
except the dropped portfolio transaction history) and never an earlier
one; on a state whose pending store is empty — nothing ever saved, or
cleared by finalize — it returns absence. -/
theorem get_pending_returns_latest_record (s : CtrlState)
    (es : List Episode) (e : Episode) :
    get_current_episode (save_seq (es ++ [e]) s)
      = some (validate_episode (dump_episode e)) ∧
    ∀ t : CtrlState, t.pending = [] → get_current_episode t = none := by
  constructor
  · rw [get_current_episode, save_seq_pending]
    simp [List.getLast?_concat, ← List.append_assoc]
  · intro t ht
    simp [get_current_episode, ht]

/-- C9 amended witness: two saves on a fresh controller; the read returns
the record of the second, and the fresh controller itself reads as
absent. -/
theorem get_pending_returns_latest_record_witness :
    get_current_episode (save_seq [ep_no_refl, ep0] init_ctrl_state)
      = some (validate_episode (dump_episode ep0)) ∧
    get_current_episode init_ctrl_state = none :=
  ⟨(get_pending_returns_latest_record init_ctrl_state [ep_no_refl] ep0).1,
    (get_pending_returns_latest_record init_ctrl_state [ep_no_refl] ep0).2
      init_ctrl_state rfl⟩

end StockAgent
